import Mathlib

/-!
Verification of the lumina gRPC facade (`grpc/src/client.rs`, `grpc/src/error.rs`)
and the foreign-language binding layer (`node-uniffi/src/error.rs`,
`node-uniffi/src/types.rs`), as a shallow embedding in Lean 4.

Bytes are modelled as `List Nat`, external (out-of-crate) encoders and the
network transport as explicit function parameters bundled in environment
structures, and the `&mut self` receiver of each facade operation as explicit
state passing: every operation takes the client value and returns it alongside
its result, together with the list of raw transport invocations it performed.
-/

namespace Grpc

/-- The closed error enumeration of `grpc/src/error.rs`.  Each variant that
wraps an upstream error type (`tonic::Status`, `tendermint::Error`,
`celestia_types::Error`, `tendermint_proto::Error`) carries that error reduced
to its display message, which is the only observable this layer uses. -/
inductive Error where
  | TonicError (msg : String)
  | TendermintError (msg : String)
  | CelestiaTypesError (msg : String)
  | TendermintProtoError (msg : String)
  | FailedToParseResponse
  | UnexpectedResponseType (s : String)
  | TxEmptyBlobList
  deriving Repr, DecidableEq

/-- Display string of an `Error`, following the `thiserror` derive in
`grpc/src/error.rs`: the four `#[error(transparent)]` variants forward the
upstream message unchanged, the remaining three use the fixed format string. -/
def Error.message : Error → String
  | .TonicError m => m
  | .TendermintError m => m
  | .CelestiaTypesError m => m
  | .TendermintProtoError m => m
  | .FailedToParseResponse => "Failed to parse response"
  | .UnexpectedResponseType _ => "Unexpected response type"
  | .TxEmptyBlobList => "Attempted to submit blob transaction with empty blob list"

/-- The five failure kinds of the spec's error taxonomy (section 7). -/
inductive ErrorKind where
  | transport
  | upstreamConsensusDecode
  | domainDecode
  | responseShapeMismatch
  | localValidation
  deriving Repr, DecidableEq

/-- Classification of each `Error` variant into the spec's five kinds:
`TonicError` is a transport failure, `TendermintError` and
`TendermintProtoError` are upstream consensus-format decode failures,
`CelestiaTypesError` is a domain-type decode failure, `FailedToParseResponse`
and `UnexpectedResponseType` are response shape mismatches, and
`TxEmptyBlobList` is the local validation failure. -/
def Error.kind : Error → ErrorKind
  | .TonicError _ => .transport
  | .TendermintError _ => .upstreamConsensusDecode
  | .TendermintProtoError _ => .upstreamConsensusDecode
  | .CelestiaTypesError _ => .domainDecode
  | .FailedToParseResponse => .responseShapeMismatch
  | .UnexpectedResponseType _ => .responseShapeMismatch
  | .TxEmptyBlobList => .localValidation

/-- `cosmos.tx.v1beta1.BroadcastMode` (external proto enum), forwarded opaquely
by the facade. -/
inductive BroadcastMode where
  | unspecified
  | block
  | sync
  | async
  deriving Repr, DecidableEq

/-- The transport channel is external and opaque to this layer; it is only ever
stored and handed to stub constructors. -/
abbrev Channel : Type := Nat

/-- The wire envelope `celestia_types::blob::RawBlobTx` as assembled by
`broadcast_blob_tx`: the encoded base transaction, the ordered wire blobs, and
the type discriminator string. -/
structure RawBlobTx (WireBlob : Type) where
  tx : List Nat
  blobs : List WireBlob
  type_id : String
  deriving Repr, DecidableEq

/-- `GrpcClient` from `grpc/src/client.rs`: the shared channel and the
auth interceptor, nothing else. -/
structure GrpcClient (I : Type) where
  grpc_channel : Channel
  auth_interceptor : I
  deriving Repr, DecidableEq

/-- One invocation of the raw broadcast transport, recorded so that theorems
can count network interactions. -/
structure TransportCall where
  tx_bytes : List Nat
  mode : BroadcastMode
  deriving Repr, DecidableEq

/-- The external collaborators of `broadcast_blob_tx`, all defined outside the
facade crate: prost's `Message::encode_to_vec` on the base transaction
(`encodeTx`) and on the envelope (`encodeBlobTx`), the
`Into<RawBlob> for Blob` conversion from `celestia_types` (`blobToWire`), and
the remote `broadcast_tx` endpoint reached through the channel and the
interceptor (`transport`). -/
structure GrpcEnv (RawTx Blob WireBlob TxResponse I : Type) where
  encodeTx : RawTx → List Nat
  blobToWire : Blob → WireBlob
  encodeBlobTx : RawBlobTx WireBlob → List Nat
  transport : Channel → I → List Nat → BroadcastMode → Except Error TxResponse

/-- `GrpcClient::broadcast_tx` (generated by the `grpc_method` attribute).
Modelled from the spec: the generated body builds the tx-service stub from the
shared channel and a clone of the auth interceptor, sends the request, and
converts the response, mutating no field of the client.  We record the single
transport invocation and return the client unchanged. -/
def GrpcClient.broadcast_tx {RawTx Blob WireBlob TxResponse I : Type}
    (env : GrpcEnv RawTx Blob WireBlob TxResponse I) (c : GrpcClient I)
    (tx_bytes : List Nat) (mode : BroadcastMode) :
    (Except Error TxResponse × List TransportCall) × GrpcClient I :=
  ((env.transport c.grpc_channel c.auth_interceptor tx_bytes mode,
    [⟨tx_bytes, mode⟩]), c)

/-- The `BLOB_TX_TYPE_ID` constant of `broadcast_blob_tx`. -/
def BLOB_TX_TYPE_ID : String := "BLOB"

/-- The envelope value assembled by `broadcast_blob_tx` after the emptiness
check: `RawBlobTx { tx: tx.encode_to_vec(), blobs: blobs.map(Into::into),
type_id: BLOB_TX_TYPE_ID }`. -/
def mkBlobTx {RawTx Blob WireBlob TxResponse I : Type}
    (env : GrpcEnv RawTx Blob WireBlob TxResponse I)
    (tx : RawTx) (blobs : List Blob) : RawBlobTx WireBlob :=
  { tx := env.encodeTx tx
    blobs := blobs.map env.blobToWire
    type_id := BLOB_TX_TYPE_ID }

/-- `GrpcClient::broadcast_blob_tx` from `grpc/src/client.rs`: reject an empty
blob list before any network interaction, otherwise assemble the envelope,
serialize it, and delegate to the raw `broadcast_tx` operation. -/
def GrpcClient.broadcast_blob_tx {RawTx Blob WireBlob TxResponse I : Type}
    (env : GrpcEnv RawTx Blob WireBlob TxResponse I) (c : GrpcClient I)
    (tx : RawTx) (blobs : List Blob) (mode : BroadcastMode) :
    (Except Error TxResponse × List TransportCall) × GrpcClient I :=
  if blobs.isEmpty then
    ((Except.error Error.TxEmptyBlobList, []), c)
  else
    c.broadcast_tx env (env.encodeBlobTx (mkBlobTx env tx blobs)) mode

/-- A facade operation body as generated by the `grpc_method` attribute for any
of the query endpoints.  Modelled from the spec: build the stub from the shared
channel and a clone of the auth interceptor, convert the domain parameter to
the wire request, invoke the stub's single operation, convert the wire response
back to the domain result, propagate any error; no field of the client is
mutated. -/
def GrpcClient.genericOp {I P Req Resp R : Type}
    (intoParam : P → Req) (fromResponse : Resp → Except Error R)
    (stubCall : Channel → I → Req → Except Error Resp)
    (c : GrpcClient I) (p : P) : Except Error R × GrpcClient I :=
  (match stubCall c.grpc_channel c.auth_interceptor (intoParam p) with
   | .error e => .error e
   | .ok resp => fromResponse resp, c)

/-- The wire request `GetBlockByHeightRequest` with its height field. -/
structure GetBlockByHeightRequest where
  height : Int
  deriving Repr, DecidableEq

/-- The external collaborators of `get_block_by_height`: the error value the
implementation chooses for the negative-height failure (the spec leaves the
concrete kind open) and the tendermint-service stub endpoint reached through
the channel and the interceptor. -/
structure BlockEnv (Block I : Type) where
  heightErr : Error
  blockTransport : Channel → I → GetBlockByHeightRequest → Except Error Block

/-- Modelled from the spec: the `grpc_method`-generated body of
`GrpcClient::get_block_by_height` and the `IntoGrpcParam` conversion of a
height into the wire request, neither of which is part of the facade source.
Per the spec, a negative height fails with a local-validation or
request-construction error (the implementation chooses which) without
contacting the network, and a non-negative height is placed in the request
unchanged — never clamped or reinterpreted. -/
def GrpcClient.get_block_by_height {Block I : Type}
    (env : BlockEnv Block I) (c : GrpcClient I) (height : Int) :
    (Except Error Block × List GetBlockByHeightRequest) × GrpcClient I :=
  if height < 0 then
    ((Except.error env.heightErr, []), c)
  else
    ((env.blockTransport c.grpc_channel c.auth_interceptor ⟨height⟩, [⟨height⟩]), c)

end Grpc

namespace Uniffi

/-- The error enumeration `LuminaError` of `node-uniffi/src/error.rs`. -/
inductive LuminaError where
  | NodeNotRunning
  | NetworkError (msg : String)
  | StorageError (msg : String)
  | AlreadyRunning
  | LockError
  | InvalidHash (msg : String)
  | InvalidHeader (msg : String)
  | StorageInit (msg : String)
  deriving Repr, DecidableEq

/-- Coarse classification of node-level failures.  Modelled from the spec:
`lumina_node::NodeError` is outside the binding source; the binding only
observes its display string, so the error's own kind is carried here solely to
show the conversion ignores it. -/
inductive NodeErrorKind where
  | p2p
  | store
  | syncer
  | daser
  | other
  deriving Repr, DecidableEq

/-- Modelled from the spec: `lumina_node::NodeError`, reduced to the two
observables the binding can reach — its kind (ignored by the conversion) and
its `to_string()` display output. -/
structure NodeError where
  kind : NodeErrorKind
  display : String
  deriving Repr, DecidableEq

/-- `impl From<NodeError> for LuminaError` from `node-uniffi/src/error.rs`:
always the `NetworkError` variant, with the source's display string as the
message. -/
def luminaErrorFromNodeError (e : NodeError) : LuminaError :=
  .NetworkError e.display

/-- `impl From<libp2p::multiaddr::Error> for LuminaError` from
`node-uniffi/src/error.rs`, with the upstream error reduced to its display
string. -/
def luminaErrorFromMultiaddrError (e : String) : LuminaError :=
  .NetworkError ("Invalid multiaddr: " ++ e)

/-- A libp2p peer identifier, external to the binding; reduced to its base58
display string, the only observable `PeerId::from_libp2p` uses. -/
structure Libp2pPeerId where
  base58 : String
  deriving Repr, DecidableEq

/-- `PeerId` from `node-uniffi/src/types.rs`: the peer ID stored as a base58
string. -/
structure PeerId where
  peer_id : String
  deriving Repr, DecidableEq

/-- `PeerId::from_libp2p` from `node-uniffi/src/types.rs`. -/
def PeerId.from_libp2p (p : Libp2pPeerId) : PeerId :=
  ⟨p.base58⟩

/-- `std::time::Duration`, modelled by its total length in nanoseconds. -/
structure Duration where
  nanos : Nat
  deriving Repr, DecidableEq

/-- `Duration::as_millis`: the whole number of milliseconds contained in the
duration. -/
def Duration.as_millis (d : Duration) : Nat :=
  d.nanos / 1000000

/-- `took.as_millis() as u64`: the millisecond count truncated to 64 bits. -/
def Duration.as_millis_u64 (d : Duration) : Nat :=
  d.as_millis % (2 ^ 64)

/-- `ShareCoordinate` from `node-uniffi/src/types.rs`. -/
structure ShareCoordinate where
  row : Nat
  column : Nat
  deriving Repr, DecidableEq

/-- The binding-level `NodeEvent` enum from `node-uniffi/src/types.rs`. -/
inductive NodeEvent where
  | ConnectingToBootnodes
  | PeerConnected (id : PeerId) (trusted : Bool)
  | PeerDisconnected (id : PeerId) (trusted : Bool)
  | SamplingStarted (height : Nat) (square_width : Nat)
      (shares : List ShareCoordinate)
  | ShareSamplingResult (height : Nat) (square_width : Nat)
      (row : Nat) (column : Nat) (accepted : Bool)
  | SamplingFinished (height : Nat) (accepted : Bool) (took_ms : Nat)
  | FatalDaserError (error : String)
  | AddedHeaderFromHeaderSub (height : Nat)
  | FetchingHeadHeaderStarted
  | FetchingHeadHeaderFinished (height : Nat) (took_ms : Nat)
  | FetchingHeadersStarted (from_height : Nat) (to_height : Nat)
  | FetchingHeadersFinished (from_height : Nat) (to_height : Nat) (took_ms : Nat)
  | FetchingHeadersFailed (from_height : Nat) (to_height : Nat)
      (error : String) (took_ms : Nat)
  | FatalSyncerError (error : String)
  | PrunedHeaders (to_height : Nat)
  | FatalPrunerError (error : String)
  | NetworkCompromised
  | NodeStopped
  deriving Repr, DecidableEq

/-- `lumina_node::events::NodeEvent`, the source enum of the conversion.
Modelled from the spec: the node runtime is outside the binding source; its
variants are taken from the match patterns the conversion compiles against,
plus one constructor standing for any variant outside that enumerated list
(the match ends in a catch-all arm, so the source enum admits such values). -/
inductive LuminaNodeEvent where
  | ConnectingToBootnodes
  | PeerConnected (id : Libp2pPeerId) (trusted : Bool)
  | PeerDisconnected (id : Libp2pPeerId) (trusted : Bool)
  | SamplingStarted (height : Nat) (square_width : Nat)
      (shares : List (Nat × Nat))
  | ShareSamplingResult (height : Nat) (square_width : Nat)
      (row : Nat) (column : Nat) (accepted : Bool)
  | SamplingFinished (height : Nat) (accepted : Bool) (took : Duration)
  | FatalDaserError (error : String)
  | AddedHeaderFromHeaderSub (height : Nat)
  | FetchingHeadHeaderStarted
  | FetchingHeadHeaderFinished (height : Nat) (took : Duration)
  | FetchingHeadersStarted (from_height : Nat) (to_height : Nat)
  | FetchingHeadersFinished (from_height : Nat) (to_height : Nat) (took : Duration)
  | FetchingHeadersFailed (from_height : Nat) (to_height : Nat)
      (error : String) (took : Duration)
  | FatalSyncerError (error : String)
  | PrunedHeaders (to_height : Nat)
  | FatalPrunerError (error : String)
  | NetworkCompromised
  | NodeStopped
  | OutsideEnumeratedList
  deriving Repr, DecidableEq

/-- `impl From<LuminaNodeEvent> for NodeEvent` from `node-uniffi/src/types.rs`.
The Rust conversion is total only by panicking: its final arm is
`_ => panic!(..)`.  The panic is modelled as `none`; every enumerated arm
produces `some` of the translated event. -/
def nodeEventFromLumina : LuminaNodeEvent → Option NodeEvent
  | .ConnectingToBootnodes => some .ConnectingToBootnodes
  | .PeerConnected id trusted =>
      some (.PeerConnected (PeerId.from_libp2p id) trusted)
  | .PeerDisconnected id trusted =>
      some (.PeerDisconnected (PeerId.from_libp2p id) trusted)
  | .SamplingStarted height square_width shares =>
      some (.SamplingStarted height square_width
        (shares.map fun rc => ⟨rc.1, rc.2⟩))
  | .ShareSamplingResult height square_width row column accepted =>
      some (.ShareSamplingResult height square_width row column accepted)
  | .SamplingFinished height accepted took =>
      some (.SamplingFinished height accepted took.as_millis_u64)
  | .FatalDaserError error => some (.FatalDaserError error)
  | .AddedHeaderFromHeaderSub height => some (.AddedHeaderFromHeaderSub height)
  | .FetchingHeadHeaderStarted => some .FetchingHeadHeaderStarted
  | .FetchingHeadHeaderFinished height took =>
      some (.FetchingHeadHeaderFinished height took.as_millis_u64)
  | .FetchingHeadersStarted from_height to_height =>
      some (.FetchingHeadersStarted from_height to_height)
  | .FetchingHeadersFinished from_height to_height took =>
      some (.FetchingHeadersFinished from_height to_height took.as_millis_u64)
  | .FetchingHeadersFailed from_height to_height error took =>
      some (.FetchingHeadersFailed from_height to_height error took.as_millis_u64)
  | .FatalSyncerError error => some (.FatalSyncerError error)
  | .PrunedHeaders to_height => some (.PrunedHeaders to_height)
  | .FatalPrunerError error => some (.FatalPrunerError error)
  | .NetworkCompromised => some .NetworkCompromised
  | .NodeStopped => some .NodeStopped
  | .OutsideEnumeratedList => none

/-- `lumina_node::network::Network`, external to the binding; reduced to the
two observables `into_node_builder` uses: its `id()` string and its canonical
bootnode list. -/
structure Network (Multiaddr : Type) where
  id : String
  canonicalBootnodes : List Multiaddr

/-- `NodeStartConfig` from `node-uniffi/src/types.rs`. -/
structure NodeStartConfig (Multiaddr : Type) where
  network : Network Multiaddr
  bootnodes : Option (List String)
  syncing_window_secs : Option Nat
  pruning_delay_secs : Option Nat
  batch_size : Option Nat
  ed25519_secret_key_bytes : Option (List Nat)

/-- `lumina_node::NodeBuilder` as configured by `into_node_builder`, external
to the binding and reduced to the fields the conversion sets: store,
blockstore (identified with the database handle it wraps), network, bootnodes,
keypair, sync batch size, and the two optional durations (kept as their
whole-second values). -/
structure NodeBuilder (Db Store Multiaddr Keypair : Type) where
  store : Store
  blockstore : Db
  network : Network Multiaddr
  bootnodes : List Multiaddr
  keypair : Keypair
  sync_batch_size : Nat
  sampling_window_secs : Option Nat
  pruning_delay_secs : Option Nat

/-- The effectful collaborators of `into_node_builder`, all external to the
binding source: the platform base path (`get_base_path`), directory creation
(`std::fs::create_dir_all`), database creation (`redb::Database::create`),
store initialization (`RedbStore::new`), multiaddr parsing (`str::parse`),
and the two libp2p keypair constructors.  Fallible ones are reduced to the
display string of their error, the only observable the binding uses. -/
structure NodeEnv (Db Store Multiaddr Keypair : Type) where
  basePath : Except LuminaError String
  createDir : String → Except String Unit
  createDb : String → Except String Db
  newStore : Db → Except String Store
  parseMultiaddr : String → Except String Multiaddr
  ed25519FromBytes : List Nat → Except String Keypair
  freshEd25519 : Keypair

/-- The bootnode-resolution step of `into_node_builder`: parse each
caller-supplied address in order, failing at the first invalid one via the
`From<libp2p::multiaddr::Error>` conversion, or fall back to the network's
canonical bootnodes. -/
def resolveBootnodes {Db Store Multiaddr Keypair : Type}
    (env : NodeEnv Db Store Multiaddr Keypair)
    (cfg : NodeStartConfig Multiaddr) : Except LuminaError (List Multiaddr) :=
  match cfg.bootnodes with
  | some bs =>
      bs.mapM fun addr =>
        match env.parseMultiaddr addr with
        | .error e => .error (luminaErrorFromMultiaddrError e)
        | .ok a => .ok a
  | none => .ok cfg.network.canonicalBootnodes

/-- The keypair step of `into_node_builder`: a caller-supplied secret key must
be exactly 32 bytes and must parse as an Ed25519 key; with no key supplied, a
fresh Ed25519 keypair is generated. -/
def keypairOf {Db Store Multiaddr Keypair : Type}
    (env : NodeEnv Db Store Multiaddr Keypair)
    (cfg : NodeStartConfig Multiaddr) : Except LuminaError Keypair :=
  match cfg.ed25519_secret_key_bytes with
  | some key_bytes =>
      if key_bytes.length ≠ 32 then
        .error (.NetworkError "Ed25519 private key must be 32 bytes")
      else
        match env.ed25519FromBytes key_bytes with
        | .error e => .error (.NetworkError ("Invalid Ed25519 key: " ++ e))
        | .ok k => .ok k
  | none => .ok env.freshEd25519

/-- `NodeStartConfig::into_node_builder` from `node-uniffi/src/types.rs`:
resolve the platform base path, create the data directory, the database and
the store (each failure wrapped in the storage error variants with the format
strings of the source), resolve the bootnodes, validate or generate the
keypair, and assemble the builder. -/
def NodeStartConfig.into_node_builder {Db Store Multiaddr Keypair : Type}
    (env : NodeEnv Db Store Multiaddr Keypair)
    (cfg : NodeStartConfig Multiaddr) :
    Except LuminaError (NodeBuilder Db Store Multiaddr Keypair) :=
  match env.basePath with
  | .error e => .error e
  | .ok base_path =>
    let store_path := base_path ++ "/store-" ++ cfg.network.id
    match env.createDir base_path with
    | .error e => .error (.StorageError ("Failed to create data directory: " ++ e))
    | .ok _ =>
      match env.createDb store_path with
      | .error e => .error (.StorageInit ("Failed to create database: " ++ e))
      | .ok db =>
        match env.newStore db with
        | .error e => .error (.StorageInit ("Failed to initialize store: " ++ e))
        | .ok store =>
          match resolveBootnodes env cfg with
          | .error e => .error e
          | .ok bootnodes =>
            match keypairOf env cfg with
            | .error e => .error e
            | .ok keypair =>
              .ok { store := store
                    blockstore := db
                    network := cfg.network
                    bootnodes := bootnodes
                    keypair := keypair
                    sync_batch_size := cfg.batch_size.getD 128
                    sampling_window_secs := cfg.syncing_window_secs
                    pruning_delay_secs := cfg.pruning_delay_secs }

end Uniffi

/-! ### Concrete instances used to evaluate the theorems on closed inputs -/

/-- A concrete environment instantiating every external collaborator of the
blob-broadcast path with a small computable function. -/
def sampleGrpcEnv : Grpc.GrpcEnv Nat Nat Nat Nat Nat :=
  { encodeTx := fun t => [t]
    blobToWire := fun b => b + 1
    encodeBlobTx := fun bt => bt.tx ++ bt.blobs
    transport := fun _ _ tx_bytes _ => .ok tx_bytes.length }

/-- A concrete client value. -/
def sampleClient : Grpc.GrpcClient Nat :=
  { grpc_channel := 0, auth_interceptor := 0 }

/-- A concrete environment for the block-by-height operation. -/
def sampleBlockEnv : Grpc.BlockEnv Nat Nat :=
  { heightErr := Grpc.Error.FailedToParseResponse
    blockTransport := fun _ _ _ => .ok 0 }

/-- A concrete environment instantiating every external collaborator of
`into_node_builder` with a small computable function. -/
def sampleNodeEnv : Uniffi.NodeEnv Nat Nat String Nat :=
  { basePath := .ok "/data"
    createDir := fun _ => .ok ()
    createDb := fun _ => .ok 7
    newStore := fun d => .ok (d + 1)
    parseMultiaddr := fun s => .ok s
    ed25519FromBytes := fun key_bytes => .ok key_bytes.length
    freshEd25519 := 99 }

/-- A concrete start configuration carrying a 3-byte secret key. -/
def sampleConfigBadKey : Uniffi.NodeStartConfig String :=
  { network := { id := "testnet", canonicalBootnodes := ["boot1"] }
    bootnodes := none
    syncing_window_secs := none
    pruning_delay_secs := none
    batch_size := none
    ed25519_secret_key_bytes := some [1, 2, 3] }

/-! ### Theorems -/

namespace Grpc

/-- C1: a call to `broadcast_blob_tx` with an empty blob list fails with
`Error::TxEmptyBlobList` for every base transaction, client state, environment
and broadcast mode, and the raw broadcast operation is invoked zero times (the
recorded transport-call list is empty). -/
theorem broadcast_blob_tx_empty_fails_without_network
    {RawTx Blob WireBlob TxResponse I : Type}
    (env : GrpcEnv RawTx Blob WireBlob TxResponse I) (c : GrpcClient I)
    (tx : RawTx) (mode : BroadcastMode) :
    (c.broadcast_blob_tx env tx ([] : List Blob) mode).1
      = (Except.error Error.TxEmptyBlobList, []) := rfl

/-- C2: for every non-empty blob sequence, `broadcast_blob_tx` passes to the
raw broadcast operation exactly the canonical serialization of the envelope
`{tx := encode(T), blobs := wire blobs in input order, type_id := "BLOB"}`,
together with the unmodified mode, and returns the transport's result
unchanged. -/
theorem broadcast_blob_tx_envelope
    {RawTx Blob WireBlob TxResponse I : Type}
    (env : GrpcEnv RawTx Blob WireBlob TxResponse I) (c : GrpcClient I)
    (tx : RawTx) (blobs : List Blob) (mode : BroadcastMode)
    (h : blobs ≠ []) :
    (c.broadcast_blob_tx env tx blobs mode).1
      = (env.transport c.grpc_channel c.auth_interceptor
           (env.encodeBlobTx
             { tx := env.encodeTx tx
               blobs := blobs.map env.blobToWire
               type_id := "BLOB" }) mode,
         [{ tx_bytes := env.encodeBlobTx
              { tx := env.encodeTx tx
                blobs := blobs.map env.blobToWire
                type_id := "BLOB" }
            mode := mode }]) := by
  cases blobs with
  | nil => exact absurd rfl h
  | cons b bs => rfl

/-- Witness for C2: evaluating `broadcast_blob_tx` on the concrete inputs
`tx = 5`, `blobs = [1, 2]`, `mode = sync` through the theorem. -/
theorem broadcast_blob_tx_envelope_witness :
    (sampleClient.broadcast_blob_tx sampleGrpcEnv 5 [1, 2] BroadcastMode.sync).1
      = (sampleGrpcEnv.transport sampleClient.grpc_channel
           sampleClient.auth_interceptor
           (sampleGrpcEnv.encodeBlobTx
             { tx := sampleGrpcEnv.encodeTx 5
               blobs := [1, 2].map sampleGrpcEnv.blobToWire
               type_id := "BLOB" }) BroadcastMode.sync,
         [{ tx_bytes := sampleGrpcEnv.encodeBlobTx
              { tx := sampleGrpcEnv.encodeTx 5
                blobs := [1, 2].map sampleGrpcEnv.blobToWire
                type_id := "BLOB" }
            mode := BroadcastMode.sync }]) :=
  broadcast_blob_tx_envelope sampleGrpcEnv sampleClient 5 [1, 2]
    BroadcastMode.sync (by decide)

/-- C3: the `type_id` of every envelope the builder constructs equals the
string "BLOB", and this value is independent of every caller-supplied input
(environment, base transaction, blob list) — any two constructed envelopes,
over any instantiations, carry the same marker. -/
theorem blob_tx_type_marker_constant :
    (∀ (RawTx Blob WireBlob TxResponse I : Type)
        (env : GrpcEnv RawTx Blob WireBlob TxResponse I)
        (tx : RawTx) (blobs : List Blob),
        (mkBlobTx env tx blobs).type_id = "BLOB") ∧
    (∀ (RawTx Blob WireBlob TxResponse I : Type)
        (RawTx' Blob' WireBlob' TxResponse' I' : Type)
        (env : GrpcEnv RawTx Blob WireBlob TxResponse I)
        (env' : GrpcEnv RawTx' Blob' WireBlob' TxResponse' I')
        (tx : RawTx) (blobs : List Blob) (tx' : RawTx') (blobs' : List Blob'),
        (mkBlobTx env tx blobs).type_id = (mkBlobTx env' tx' blobs').type_id) :=
  ⟨fun _ _ _ _ _ _ _ _ => rfl,
   fun _ _ _ _ _ _ _ _ _ _ _ _ _ _ _ _ => rfl⟩

/-- C4: once the non-emptiness check passes, the envelope-building and
encoding steps cannot fail: the call's outcome is exactly the outcome of a
single raw broadcast invocation on some byte sequence — no error is produced
between the check and the handoff. -/
theorem broadcast_blob_tx_encoding_total
    {RawTx Blob WireBlob TxResponse I : Type}
    (env : GrpcEnv RawTx Blob WireBlob TxResponse I) (c : GrpcClient I)
    (tx : RawTx) (blobs : List Blob) (mode : BroadcastMode)
    (h : blobs ≠ []) :
    ∃ tx_bytes : List Nat,
      (c.broadcast_blob_tx env tx blobs mode).1
        = (env.transport c.grpc_channel c.auth_interceptor tx_bytes mode,
           [{ tx_bytes := tx_bytes, mode := mode }]) := by
  cases blobs with
  | nil => exact absurd rfl h
  | cons b bs => exact ⟨env.encodeBlobTx (mkBlobTx env tx (b :: bs)), rfl⟩

/-- Witness for C4: the concrete call with `blobs = [1, 2]` is a single
transport invocation. -/
theorem broadcast_blob_tx_encoding_total_witness :
    ∃ tx_bytes : List Nat,
      (sampleClient.broadcast_blob_tx sampleGrpcEnv 5 [1, 2] BroadcastMode.sync).1
        = (sampleGrpcEnv.transport sampleClient.grpc_channel
             sampleClient.auth_interceptor tx_bytes BroadcastMode.sync,
           [{ tx_bytes := tx_bytes, mode := BroadcastMode.sync }]) :=
  broadcast_blob_tx_encoding_total sampleGrpcEnv sampleClient 5 [1, 2]
    BroadcastMode.sync (by decide)

/-- C5: `get_block_by_height` on a negative height fails with the
implementation-chosen construction error and performs no network request, and
on a non-negative height it sends the request carrying exactly that height —
never clamped or reinterpreted. -/
theorem get_block_by_height_validates {Block I : Type}
    (env : BlockEnv Block I) (c : GrpcClient I) (height : Int) :
    (height < 0 →
      (c.get_block_by_height env height).1 = (Except.error env.heightErr, [])) ∧
    (0 ≤ height →
      (c.get_block_by_height env height).1
        = (env.blockTransport c.grpc_channel c.auth_interceptor
             { height := height },
           [{ height := height }])) := by
  constructor
  · intro h
    simp [GrpcClient.get_block_by_height, h]
  · intro h
    simp [GrpcClient.get_block_by_height, Int.not_lt.mpr h]

/-- Witness for C5: height `-1` fails locally with no request sent, height `7`
is forwarded unchanged. -/
theorem get_block_by_height_validates_witness :
    ((sampleClient.get_block_by_height sampleBlockEnv (-1)).1
        = (Except.error sampleBlockEnv.heightErr, [])) ∧
    ((sampleClient.get_block_by_height sampleBlockEnv 7).1
        = (sampleBlockEnv.blockTransport sampleClient.grpc_channel
             sampleClient.auth_interceptor { height := 7 },
           [{ height := 7 }])) :=
  ⟨(get_block_by_height_validates sampleBlockEnv sampleClient (-1)).1 (by decide),
   (get_block_by_height_validates sampleBlockEnv sampleClient 7).2 (by decide)⟩

/-- C6: the error taxonomy is a closed enumeration whose classification into
the five spec kinds is total (by typing) and surjective; each upstream-wrapping
variant preserves the upstream message verbatim; and the blob-broadcast path
neither retries, suppresses nor defaults a failure: for a non-empty blob list
the call's result is exactly the transport's result and exactly one transport
invocation occurs. -/
theorem error_taxonomy_closed_and_transparent :
    (∀ k : ErrorKind, ∃ e : Error, e.kind = k) ∧
    (∀ m : String,
        (Error.TonicError m).message = m
      ∧ (Error.TendermintError m).message = m
      ∧ (Error.CelestiaTypesError m).message = m
      ∧ (Error.TendermintProtoError m).message = m) ∧
    (∀ (RawTx Blob WireBlob TxResponse I : Type)
        (env : GrpcEnv RawTx Blob WireBlob TxResponse I) (c : GrpcClient I)
        (tx : RawTx) (blobs : List Blob) (mode : BroadcastMode),
        blobs ≠ [] →
        (c.broadcast_blob_tx env tx blobs mode).1.1
            = env.transport c.grpc_channel c.auth_interceptor
                (env.encodeBlobTx (mkBlobTx env tx blobs)) mode
          ∧ ((c.broadcast_blob_tx env tx blobs mode).1.2).length = 1) := by
  refine ⟨?_, fun m => ⟨rfl, rfl, rfl, rfl⟩, ?_⟩
  · intro k
    cases k with
    | transport => exact ⟨.TonicError "", rfl⟩
    | upstreamConsensusDecode => exact ⟨.TendermintError "", rfl⟩
    | domainDecode => exact ⟨.CelestiaTypesError "", rfl⟩
    | responseShapeMismatch => exact ⟨.FailedToParseResponse, rfl⟩
    | localValidation => exact ⟨.TxEmptyBlobList, rfl⟩
  · intro RawTx Blob WireBlob TxResponse I env c tx blobs mode h
    cases blobs with
    | nil => exact absurd rfl h
    | cons b bs => exact ⟨rfl, rfl⟩

/-- Witness for C6: the pass-through conjunct evaluated on the concrete call
with `blobs = [1, 2]`. -/
theorem error_taxonomy_witness :
    (sampleClient.broadcast_blob_tx sampleGrpcEnv 5 [1, 2] BroadcastMode.sync).1.1
        = sampleGrpcEnv.transport sampleClient.grpc_channel
            sampleClient.auth_interceptor
            (sampleGrpcEnv.encodeBlobTx (mkBlobTx sampleGrpcEnv 5 [1, 2]))
            BroadcastMode.sync
      ∧ ((sampleClient.broadcast_blob_tx sampleGrpcEnv 5 [1, 2]
            BroadcastMode.sync).1.2).length = 1 :=
  error_taxonomy_closed_and_transparent.2.2 Nat Nat Nat Nat Nat
    sampleGrpcEnv sampleClient 5 [1, 2] BroadcastMode.sync (by decide)

/-- C7: no facade operation mutates the client's state: `broadcast_blob_tx`,
the raw `broadcast_tx`, `get_block_by_height` and the generic generated
operation body all return the `GrpcClient` — its `grpc_channel` and
`auth_interceptor` fields — exactly as received, whether they succeed or
fail. -/
theorem facade_operations_do_not_mutate_client :
    ∀ (RawTx Blob WireBlob TxResponse I Block P Req Resp R : Type)
      (env : GrpcEnv RawTx Blob WireBlob TxResponse I)
      (benv : BlockEnv Block I) (c : GrpcClient I)
      (tx : RawTx) (blobs : List Blob) (mode : BroadcastMode)
      (tx_bytes : List Nat) (height : Int)
      (intoParam : P → Req) (fromResponse : Resp → Except Error R)
      (stubCall : Channel → I → Req → Except Error Resp) (p : P),
      (c.broadcast_blob_tx env tx blobs mode).2 = c
    ∧ (c.broadcast_tx env tx_bytes mode).2 = c
    ∧ (c.get_block_by_height benv height).2 = c
    ∧ (c.genericOp intoParam fromResponse stubCall p).2 = c := by
  intro RawTx Blob WireBlob TxResponse I Block P Req Resp R env benv c
    tx blobs mode tx_bytes height intoParam fromResponse stubCall p
  refine ⟨?_, rfl, ?_, rfl⟩
  · cases blobs <;> rfl
  · unfold GrpcClient.get_block_by_height
    split <;> rfl

end Grpc

namespace Uniffi

/-- C8: every `NodeError` converts into the `NetworkError` variant of
`LuminaError` with `msg` equal to the source error's display string, and the
conversion ignores the source error's own kind entirely. -/
theorem nodeError_conversion_always_network :
    ∀ e : NodeError,
      luminaErrorFromNodeError e = LuminaError.NetworkError e.display
    ∧ ∀ k : NodeErrorKind,
        luminaErrorFromNodeError { kind := k, display := e.display }
          = luminaErrorFromNodeError e :=
  fun _ => ⟨rfl, fun _ => rfl⟩

/-- C9: the event conversion is partial: each of the enumerated source
variants is translated to the corresponding binding variant with every field
preserved (peer IDs through their base58 string, share coordinates pairwise,
durations as whole milliseconds truncated to 64 bits), while any variant
outside the enumerated list is not translated at all — the Rust code panics
there, modelled as `none`. -/
theorem nodeEvent_conversion_partial :
    (nodeEventFromLumina .ConnectingToBootnodes = some .ConnectingToBootnodes)
  ∧ (∀ id trusted, nodeEventFromLumina (.PeerConnected id trusted)
      = some (.PeerConnected (PeerId.from_libp2p id) trusted))
  ∧ (∀ id trusted, nodeEventFromLumina (.PeerDisconnected id trusted)
      = some (.PeerDisconnected (PeerId.from_libp2p id) trusted))
  ∧ (∀ height square_width shares,
      nodeEventFromLumina (.SamplingStarted height square_width shares)
      = some (.SamplingStarted height square_width
          (shares.map fun rc => ⟨rc.1, rc.2⟩)))
  ∧ (∀ height square_width row column accepted,
      nodeEventFromLumina
        (.ShareSamplingResult height square_width row column accepted)
      = some (.ShareSamplingResult height square_width row column accepted))
  ∧ (∀ height accepted took,
      nodeEventFromLumina (.SamplingFinished height accepted took)
      = some (.SamplingFinished height accepted (took.as_millis % (2 ^ 64))))
  ∧ (∀ error, nodeEventFromLumina (.FatalDaserError error)
      = some (.FatalDaserError error))
  ∧ (∀ height, nodeEventFromLumina (.AddedHeaderFromHeaderSub height)
      = some (.AddedHeaderFromHeaderSub height))
  ∧ (nodeEventFromLumina .FetchingHeadHeaderStarted
      = some .FetchingHeadHeaderStarted)
  ∧ (∀ height took,
      nodeEventFromLumina (.FetchingHeadHeaderFinished height took)
      = some (.FetchingHeadHeaderFinished height (took.as_millis % (2 ^ 64))))
  ∧ (∀ from_height to_height,
      nodeEventFromLumina (.FetchingHeadersStarted from_height to_height)
      = some (.FetchingHeadersStarted from_height to_height))
  ∧ (∀ from_height to_height took,
      nodeEventFromLumina (.FetchingHeadersFinished from_height to_height took)
      = some (.FetchingHeadersFinished from_height to_height
          (took.as_millis % (2 ^ 64))))
  ∧ (∀ from_height to_height error took,
      nodeEventFromLumina
        (.FetchingHeadersFailed from_height to_height error took)
      = some (.FetchingHeadersFailed from_height to_height error
          (took.as_millis % (2 ^ 64))))
  ∧ (∀ error, nodeEventFromLumina (.FatalSyncerError error)
      = some (.FatalSyncerError error))
  ∧ (∀ to_height, nodeEventFromLumina (.PrunedHeaders to_height)
      = some (.PrunedHeaders to_height))
  ∧ (∀ error, nodeEventFromLumina (.FatalPrunerError error)
      = some (.FatalPrunerError error))
  ∧ (nodeEventFromLumina .NetworkCompromised = some .NetworkCompromised)
  ∧ (nodeEventFromLumina .NodeStopped = some .NodeStopped)
  ∧ (nodeEventFromLumina .OutsideEnumeratedList = none) :=
  ⟨rfl, fun _ _ => rfl, fun _ _ => rfl, fun _ _ _ => rfl,
   fun _ _ _ _ _ => rfl, fun _ _ _ => rfl, fun _ => rfl, fun _ => rfl, rfl,
   fun _ _ => rfl, fun _ _ => rfl, fun _ _ _ => rfl, fun _ _ _ _ => rfl,
   fun _ => rfl, fun _ => rfl, fun _ => rfl, rfl, rfl, rfl⟩

/-- If `into_node_builder` succeeds, its keypair step succeeded and produced
the keypair stored in the returned builder. -/
theorem into_node_builder_ok_keypair
    {Db Store Multiaddr Keypair : Type}
    (env : NodeEnv Db Store Multiaddr Keypair)
    (cfg : NodeStartConfig Multiaddr)
    (b : NodeBuilder Db Store Multiaddr Keypair)
    (h : cfg.into_node_builder env = .ok b) :
    keypairOf env cfg = .ok b.keypair := by
  unfold NodeStartConfig.into_node_builder at h
  cases hbp : env.basePath with
  | error e => simp [hbp] at h
  | ok base_path =>
  simp only [hbp] at h
  cases hdir : env.createDir base_path with
  | error e => simp [hdir] at h
  | ok u =>
  simp only [hdir] at h
  cases hdb : env.createDb (base_path ++ "/store-" ++ cfg.network.id) with
  | error e => simp [hdb] at h
  | ok db =>
  simp only [hdb] at h
  cases hstore : env.newStore db with
  | error e => simp [hstore] at h
  | ok store =>
  simp only [hstore] at h
  cases hbs : resolveBootnodes env cfg with
  | error e => simp [hbs] at h
  | ok bootnodes =>
  simp only [hbs] at h
  cases hkp : keypairOf env cfg with
  | error e => simp [hkp] at h
  | ok keypair =>
  simp only [hkp] at h
  injection h with h
  subst h
  rfl

/-- C10: with a caller-supplied secret key whose length differs from 32,
`into_node_builder` never constructs a builder, and — whenever the storage and
bootnode steps that precede the key check succeed — it returns exactly
`NetworkError "Ed25519 private key must be 32 bytes"`; with no key supplied, a
successful conversion stores the freshly generated Ed25519 keypair. -/
theorem into_node_builder_key_validation :
    (∀ (Db Store Multiaddr Keypair : Type)
        (env : NodeEnv Db Store Multiaddr Keypair)
        (cfg : NodeStartConfig Multiaddr) (k : List Nat),
        cfg.ed25519_secret_key_bytes = some k → k.length ≠ 32 →
        (∀ b, cfg.into_node_builder env ≠ .ok b) ∧
        (∀ (base_path : String) (db : Db) (store : Store)
            (bs : List Multiaddr),
            env.basePath = .ok base_path →
            env.createDir base_path = .ok () →
            env.createDb (base_path ++ "/store-" ++ cfg.network.id) = .ok db →
            env.newStore db = .ok store →
            resolveBootnodes env cfg = .ok bs →
            cfg.into_node_builder env
              = .error (.NetworkError "Ed25519 private key must be 32 bytes"))) ∧
    (∀ (Db Store Multiaddr Keypair : Type)
        (env : NodeEnv Db Store Multiaddr Keypair)
        (cfg : NodeStartConfig Multiaddr)
        (b : NodeBuilder Db Store Multiaddr Keypair),
        cfg.ed25519_secret_key_bytes = none →
        cfg.into_node_builder env = .ok b →
        b.keypair = env.freshEd25519) := by
  constructor
  · intro Db Store Multiaddr Keypair env cfg k hk hlen
    have hkp : keypairOf env cfg
        = .error (.NetworkError "Ed25519 private key must be 32 bytes") := by
      simp [keypairOf, hk, hlen]
    constructor
    · intro b hok
      have := into_node_builder_ok_keypair env cfg b hok
      rw [hkp] at this
      exact absurd this (by simp)
    · intro base_path db store bs hbp hdir hdb hstore hbs
      unfold NodeStartConfig.into_node_builder
      simp [hbp, hdir, hdb, hstore, hbs, hkp]
  · intro Db Store Multiaddr Keypair env cfg b hnone hok
    have hkp := into_node_builder_ok_keypair env cfg b hok
    simp [keypairOf, hnone] at hkp
    exact hkp.symm

/-- Witness for C10: the concrete configuration with a 3-byte key, run through
the concrete environment, fails with exactly the 32-byte message. -/
theorem into_node_builder_key_validation_witness :
    sampleConfigBadKey.into_node_builder sampleNodeEnv
      = .error (.NetworkError "Ed25519 private key must be 32 bytes") :=
  (into_node_builder_key_validation.1 Nat Nat String Nat sampleNodeEnv
      sampleConfigBadKey [1, 2, 3] rfl (by decide)).2
    "/data" 7 8 ["boot1"] rfl rfl rfl rfl rfl

end Uniffi
